import Mathlib

/-!
Shallow embedding of src/main.py (outlier-watcher): the page-content
classifier, the stateful notification decision in check_once, and the
state persistence helpers, with theorems checking the specification.
The browser automation, HTTP transport and the file system are
abstracted at their interfaces: the rendered text arrives as input, and
tg_send is modelled by recording the message that would be sent.
-/

/-- The four classification outcomes of render_and_read
(the strings no_tasks, has_tasks, login_required, unknown). -/
inductive PageState where
  | login_required
  | no_tasks
  | has_tasks
  | unknown
deriving DecidableEq, Repr

/-- starts_with need hay: the char list need is an initial segment of hay
(helper for Python substring containment). -/
def starts_with : List Char → List Char → Bool
  | [], _ => true
  | _ :: _, [] => false
  | a :: as, b :: bs => a == b && starts_with as bs

/-- has_sub need hay: need occurs contiguously somewhere in hay. -/
def has_sub (need : List Char) : List Char → Bool
  | [] => starts_with need []
  | h :: t => starts_with need (h :: t) || has_sub need t

/-- str_in k s: the Python expression k in s (substring containment). -/
def str_in (k s : String) : Bool := has_sub k.data s.data

/-- Python str.lower(), character by character (the markers searched for
are all ASCII, where Char.toLower agrees with Python). -/
def str_lower (s : String) : String := String.mk (s.data.map Char.toLower)

/-- Login-indicator phrases (src/main.py line 189). -/
def login_markers : List String :=
  ["sign in", "log in", "continue with google", "next-auth"]

/-- The no-task phrases no_markers (src/main.py lines 197-199). -/
def no_markers : List String :=
  ["no tasks available", "there are no tasks", "you have no tasks"]

/-- The positive-evidence phrases positive_strong (src/main.py lines 203-210). -/
def positive_strong : List String :=
  ["start task", "continue task", "available tasks", "accept task",
   "project details", "assigned to you"]

/-- The classification rules of render_and_read (src/main.py lines 185-220):
lower-case the text, then first match wins among login markers, no-task
markers, positive markers; the current-project fallback and the final
case both yield unknown. -/
def classify (content_text : String) : PageState :=
  let low := str_lower content_text
  if login_markers.any (fun k => str_in k low) then PageState.login_required
  else if no_markers.any (fun m => str_in m low) then PageState.no_tasks
  else if positive_strong.any (fun m => str_in m low) then PageState.has_tasks
  else if str_in ("current project") low
          && !(no_markers.any (fun m => str_in m low)) then PageState.unknown
  else PageState.unknown

/-- Outcome of the browser interaction in render_and_read, abstracted:
either the selector div.radix-themes never appeared (lines 153-164,
carrying the body text) or a content text was extracted (lines 177-180). -/
inductive FetchOutcome where
  | no_container (body_txt : String)
  | content (content_text : String)
deriving DecidableEq, Repr

/-- render_and_read (src/main.py lines 105-220) as a function of the
configured cookie string and the abstracted browser outcome: an empty
cookie short-circuits to (login_required, "") before any fetch; the
no-container fallback applies only the login check; otherwise the text
is classified by the ordered rules. -/
def render_and_read (cookie : String) (fetched : FetchOutcome) :
    PageState × String :=
  if cookie = ("") then (PageState.login_required, (""))
  else
    match fetched with
    | FetchOutcome.no_container txt =>
        let low := str_lower txt
        if login_markers.any (fun k => str_in k low) then
          (PageState.login_required, txt)
        else (PageState.unknown, txt)
    | FetchOutcome.content content_text => (classify content_text, content_text)

/-- The persisted state dictionary, in its typed shape
(last_hash, last_status, last_checked, has_streak). -/
structure StateRec where
  last_hash : String
  last_status : PageState
  last_checked : Option String
  has_streak : Int
deriving DecidableEq, Repr

/-- The default state returned by load_state when nothing is stored
(and installed by the reset endpoint). -/
def default_state : StateRec :=
  { last_hash := "", last_status := PageState.unknown,
    last_checked := none, has_streak := 0 }

/-- The operator alert message sent on login_required (src/main.py line 234). -/
def operator_alert_msg : String :=
  "⚠️ Cookie có thể hết hạn hoặc yêu cầu đăng nhập. Hãy cập nhật OUTLIER_COOKIE."

/-- The task notification message (src/main.py line 262). -/
def task_notify_msg : String :=
  "🔔 <b>Outlier</b>: Có dấu hiệu <b>task mới</b>. Vào kiểm tra: https://app.outlier.ai/projects"

/-- The JSON-style dictionary returned by check_once. -/
structure CheckResult where
  ok : Bool
  status : PageState
  changed : Bool
  streak : Int
  time : String
deriving DecidableEq, Repr

/-- Full outcome of one check: the updated persisted state, the messages
handed to tg_send in order, and the returned dictionary. -/
structure CheckOut where
  st : StateRec
  sent : List String
  res : CheckResult
deriving DecidableEq, Repr

/-- HAS_STREAK_MIN (src/main.py line 21). -/
def HAS_STREAK_MIN : Int := 2

/-- NOTIFY_ON_FIRST_RUN (src/main.py line 22). -/
def NOTIFY_ON_FIRST_RUN : Bool := false

/-- check_once (src/main.py lines 226-281) on the non-raising path,
parameterised over the content hash function (hashlib.md5 hexdigest,
abstracted as a deterministic string function), the two configuration
constants, the previous state, the observation (status, evidence text)
produced by render_and_read, and the timestamp now. The login_required
branch updates only last_status and last_checked, sends the operator
alert and returns ok = false; otherwise changed, streak and the notify
verdict are computed and the state fields are updated. -/
def check_once (hash : String → String) (streak_min : Int)
    (notify_on_first_run : Bool) (st : StateRec)
    (obs : PageState × String) (now : String) : CheckOut :=
  let status_text := obs.1
  let evidence_text := obs.2
  if status_text = PageState.login_required then
    { st := { st with last_status := status_text, last_checked := some now },
      sent := [operator_alert_msg],
      res := { ok := false, status := status_text, changed := false,
               streak := st.has_streak, time := now } }
  else
    let content_hash := hash evidence_text
    let prev_hash := st.last_hash
    let prev_streak := st.has_streak
    let first_run : Bool := st.last_checked.isNone
    let changed : Bool :=
      if status_text ≠ PageState.unknown then decide (content_hash ≠ prev_hash)
      else false
    let has_streak : Int :=
      if status_text = PageState.has_tasks then prev_streak + 1 else 0
    let should_notify : Bool :=
      decide (status_text = PageState.has_tasks)
        && decide (has_streak ≥ streak_min)
        && changed
        && (notify_on_first_run || !first_run)
    { st := { last_hash := if status_text ≠ PageState.unknown then content_hash
                           else st.last_hash,
              last_status := status_text,
              last_checked := some now,
              has_streak := has_streak },
      sent := if should_notify then [task_notify_msg] else [],
      res := { ok := true, status := status_text, changed := changed,
               streak := has_streak, time := now } }

/-- Iterates check_once over a list of observations
(status, evidence text, timestamp), threading the persisted state, as the
scheduler loop does across ticks. -/
def run_checks (hash : String → String) (streak_min : Int)
    (notify_on_first_run : Bool) :
    StateRec → List (PageState × String × String) → StateRec
  | st, [] => st
  | st, (s, txt, now) :: rest =>
      run_checks hash streak_min notify_on_first_run
        (check_once hash streak_min notify_on_first_run st (s, txt) now).st rest

/-- Length of the leading run of has_tasks in a classification list. -/
def leading_has : List PageState → Nat
  | [] => 0
  | s :: t => if s = PageState.has_tasks then leading_has t + 1 else 0

/-- Length of the trailing run of has_tasks in a classification list. -/
def trailing_has (l : List PageState) : Nat := leading_has l.reverse

/-- A JSON value, as json.load may produce. -/
inductive Json where
  | null
  | bool (b : Bool)
  | num (n : Int)
  | str (s : String)
  | arr (l : List Json)
  | obj (fields : List (String × Json))

/-- The dictionary built by load_state, fields still dynamically typed. -/
structure LoadedState where
  last_hash : Json
  last_status : Json
  last_checked : Json
  has_streak : Json

/-- Python s.get(key, dflt): defined on dictionaries; on any other value
it raises AttributeError, modelled as Except.error. -/
def jget (j : Json) (key : String) (dflt : Json) : Except Unit Json :=
  match j with
  | Json.obj fields =>
      match fields.lookup key with
      | some v => Except.ok v
      | none => Except.ok dflt
  | _ => Except.error ()

/-- load_state (src/main.py lines 38-49): the input none models an absent
or unparseable state file (the try block catches the exception and sets
s to the empty dictionary); some j models a file parsed to the JSON
value j. The subsequent s.get calls lie outside the try block. -/
def load_state (file : Option Json) : Except Unit LoadedState :=
  let s := match file with
    | none => Json.obj []
    | some j => j
  do
    let lh ← jget s ("last_hash") (Json.str (""))
    let ls ← jget s ("last_status") (Json.str ("unknown"))
    let lc ← jget s ("last_checked") Json.null
    let hs ← jget s ("has_streak") (Json.num 0)
    Except.ok { last_hash := lh, last_status := ls,
                last_checked := lc, has_streak := hs }

/-- A concrete deterministic stand-in hash used in witnesses and
counterexamples. -/
def hash0 (s : String) : String := String.append ("#") s

/-- A concrete non-initial state used in witnesses: one earlier check
happened (last_checked set), streak 1, stored fingerprint "old". -/
def st0 : StateRec :=
  { last_hash := "old", last_status := PageState.no_tasks,
    last_checked := some ("t0"), has_streak := 1 }

/-- C1: for a non-login_required, non-raising check, the task notification
is sent iff the state is has_tasks, the updated streak reaches the
threshold, the content changed (non-unknown state, hash differing from
the stored one) and this is not a disabled first run; in particular
nothing is sent on a first run with first-run notification disabled. -/
theorem check_once_notify_iff (hash : String → String) (m : Int) (b : Bool)
    (st : StateRec) (s : PageState) (txt now : String)
    (h : s ≠ PageState.login_required) :
    ((check_once hash m b st (s, txt) now).sent = [task_notify_msg] ↔
      (s = PageState.has_tasks
        ∧ (check_once hash m b st (s, txt) now).st.has_streak ≥ m
        ∧ (s ≠ PageState.unknown ∧ hash txt ≠ st.last_hash)
        ∧ (b = true ∨ st.last_checked ≠ none)))
    ∧ (st.last_checked = none → b = false →
        (check_once hash m b st (s, txt) now).sent = []) := by
  cases s with
  | login_required => exact absurd rfl h
  | no_tasks =>
      cases hlc : st.last_checked <;> simp [check_once, hlc]
  | unknown =>
      cases hlc : st.last_checked <;> simp [check_once, hlc]
  | has_tasks =>
      cases hlc : st.last_checked <;>
        by_cases hch : hash txt = st.last_hash <;>
        by_cases hm : (st.has_streak + 1 : Int) ≥ m <;>
        cases b <;>
        simp [check_once, hlc, hch, hm]

/-- C1 witness: at a concrete non-first-run state with streak 1 and a
different stored hash, a has_tasks observation sends the notification. -/
theorem check_once_notify_iff_witness :
    (check_once hash0 HAS_STREAK_MIN NOTIFY_ON_FIRST_RUN st0
      (PageState.has_tasks, ("T")) ("t1")).sent = [task_notify_msg] :=
  ((check_once_notify_iff hash0 HAS_STREAK_MIN NOTIFY_ON_FIRST_RUN st0
      PageState.has_tasks ("T") ("t1") (by decide)).1).mpr
    (by refine ⟨rfl, by decide, ⟨by decide, by decide⟩, Or.inr (by decide)⟩)

/-- C2: any text whose lower-cased form contains one of the login markers
is classified login_required, whatever else it contains. -/
theorem classify_login_priority (text : String)
    (h : login_markers.any (fun k => str_in k (str_lower text)) = true) :
    classify text = PageState.login_required := by
  simp [classify, h]

/-- C2 witness: a text containing a no-task phrase, a positive phrase and
a login marker is still classified login_required. -/
theorem classify_login_priority_witness :
    login_markers.any
        (fun k => str_in k (str_lower
          ("You have no tasks. Project details. Sign in to continue."))) = true
    ∧ classify ("You have no tasks. Project details. Sign in to continue.")
        = PageState.login_required :=
  ⟨by decide, classify_login_priority _ (by decide)⟩

/-- run_checks distributes over list append. -/
theorem run_checks_append (hash : String → String) (m : Int) (b : Bool)
    (st : StateRec) (l1 l2 : List (PageState × String × String)) :
    run_checks hash m b st (l1 ++ l2)
      = run_checks hash m b (run_checks hash m b st l1) l2 := by
  induction l1 generalizing st with
  | nil => rfl
  | cons c t ih =>
      obtain ⟨s, txt, now⟩ := c
      simp [run_checks, ih]

/-- Appending one classification extends the trailing has_tasks run by one
exactly when it is has_tasks, and otherwise empties it. -/
theorem trailing_has_concat (c : List PageState) (x : PageState) :
    trailing_has (c ++ [x])
      = if x = PageState.has_tasks then trailing_has c + 1 else 0 := by
  simp [trailing_has, leading_has]

/-- C3 counterexample: a has_tasks check followed by a login_required check
leaves the persisted streak at 1, while the trailing run of has_tasks in
the classification sequence is 0: the login_required early return does
not reset the streak. -/
theorem streak_login_cex :
    (run_checks hash0 2 false default_state
      [(PageState.has_tasks, ("a"), ("t1")),
       (PageState.login_required, ("b"), ("t2"))]).has_streak = 1
    ∧ trailing_has [PageState.has_tasks, PageState.login_required] = 0 := by
  decide

/-- C3 amended: starting from the default state, the persisted streak
after a sequence of completed checks equals the length of the trailing
run of has_tasks in the classification sequence with all login_required
checks removed: has_tasks increments, no_tasks and unknown reset to 0,
and login_required leaves the streak untouched. -/
theorem streak_eq_trailing_run (hash : String → String) (m : Int) (b : Bool)
    (checks : List (PageState × String × String)) :
    (run_checks hash m b default_state checks).has_streak
      = ((trailing_has ((checks.map (fun c => c.1)).filter
            (fun s => decide (s ≠ PageState.login_required)))) : Int) := by
  induction checks using List.reverseRecOn with
  | nil => rfl
  | append_singleton l x ih =>
      obtain ⟨s, txt, now⟩ := x
      rw [run_checks_append]
      cases s with
      | login_required =>
          simpa [run_checks, check_once, List.filter_append] using ih
      | has_tasks =>
          simp [run_checks, check_once, List.filter_append,
                trailing_has_concat, ih]
      | no_tasks =>
          simp [run_checks, check_once, List.filter_append,
                trailing_has_concat]
      | unknown =>
          simp [run_checks, check_once, List.filter_append,
                trailing_has_concat]

/-- C4: an unknown classification leaves the stored fingerprint untouched
and always reports changed = false, whatever the new text hashes to. -/
theorem unknown_preserves_hash (hash : String → String) (m : Int) (b : Bool)
    (st : StateRec) (txt now : String) :
    (check_once hash m b st (PageState.unknown, txt) now).st.last_hash
        = st.last_hash
    ∧ (check_once hash m b st (PageState.unknown, txt) now).res.changed
        = false := by
  simp [check_once]

/-- C5 counterexample: a login_required check returns before the hash is
computed, so the stored fingerprint stays "old" and is not the hash of
the raw text. -/
theorem fingerprint_login_cex :
    (check_once hash0 2 false st0 (PageState.login_required, ("txt")) ("t")).st.last_hash
        = ("old")
    ∧ ("old") ≠ hash0 ("txt") := by decide

/-- C5 amended: for a completed check classified neither unknown nor
login_required, the stored fingerprint becomes the hash of the raw text. -/
theorem fingerprint_updated (hash : String → String) (m : Int) (b : Bool)
    (st : StateRec) (s : PageState) (txt now : String)
    (h1 : s ≠ PageState.unknown) (h2 : s ≠ PageState.login_required) :
    (check_once hash m b st (s, txt) now).st.last_hash = hash txt := by
  cases s <;> simp_all [check_once]

/-- C5 witness: a concrete no_tasks check stores the hash of its text. -/
theorem fingerprint_updated_witness :
    (check_once hash0 2 false st0 (PageState.no_tasks, ("T")) ("t1")).st.last_hash
      = hash0 ("T") :=
  fingerprint_updated hash0 2 false st0 PageState.no_tasks ("T") ("t1")
    (by decide) (by decide)

/-- C6: any login_required check sends exactly the operator alert,
whatever the previous state (including the very first check), with a
message distinct from the task notification, and still updates
last_status and last_checked. -/
theorem login_forces_alert (hash : String → String) (m : Int) (b : Bool)
    (st : StateRec) (txt now : String) :
    (check_once hash m b st (PageState.login_required, txt) now).sent
        = [operator_alert_msg]
    ∧ operator_alert_msg ≠ task_notify_msg
    ∧ (check_once hash m b st (PageState.login_required, txt) now).st.last_status
        = PageState.login_required
    ∧ (check_once hash m b st (PageState.login_required, txt) now).st.last_checked
        = some now := by
  refine ⟨?_, by decide, ?_, ?_⟩ <;> simp [check_once]

/-- C7: after a has_tasks check on text T, a second has_tasks check on the
same text T finds the stored fingerprint equal to its own hash, so it
reports changed = false and sends nothing. -/
theorem identical_repeat_no_notify (hash : String → String) (m : Int)
    (b : Bool) (st : StateRec) (T t1 t2 : String) :
    ((check_once hash m b
        (check_once hash m b st (PageState.has_tasks, T) t1).st
        (PageState.has_tasks, T) t2).res.changed = false)
    ∧ ((check_once hash m b
        (check_once hash m b st (PageState.has_tasks, T) t1).st
        (PageState.has_tasks, T) t2).sent = []) := by
  simp [check_once]

/-- Python dict.get on a dictionary value: the stored value, or the
given default when the key is missing. -/
theorem jget_obj (fields : List (String × Json)) (k : String) (d : Json) :
    jget (Json.obj fields) k d = Except.ok ((fields.lookup k).getD d) := by
  cases h : fields.lookup k <;> simp [jget, h]

/-- C8 counterexample: a state file parsing to a JSON value that is not an
object (here the array []) escapes the try block and makes load_state
raise instead of returning the default record. -/
theorem load_state_nonobject_raises :
    load_state (some (Json.arr [])) = Except.error () := rfl

/-- C8 amended: when the state file is absent or unparseable, load_state
returns the default record without raising, and when it parses to a JSON
object, every field missing from the object is filled with its default;
only a parseable non-object file makes load_state raise. -/
theorem load_state_defaults :
    load_state none = Except.ok
      { last_hash := Json.str (""), last_status := Json.str ("unknown"),
        last_checked := Json.null, has_streak := Json.num 0 }
    ∧ ∀ fields : List (String × Json),
        load_state (some (Json.obj fields)) = Except.ok
          { last_hash := (fields.lookup ("last_hash")).getD (Json.str ("")),
            last_status :=
              (fields.lookup ("last_status")).getD (Json.str ("unknown")),
            last_checked := (fields.lookup ("last_checked")).getD Json.null,
            has_streak := (fields.lookup ("has_streak")).getD (Json.num 0) } := by
  constructor
  · rfl
  · intro fields
    simp [load_state, jget_obj]
    rfl

/-- C10: with an empty cookie string, render_and_read short-circuits to
(login_required, "") whatever the browser would have produced, and the
resulting check reports failure and sends the operator alert. -/
theorem empty_cookie_login (hash : String → String) (m : Int) (b : Bool)
    (st : StateRec) (now : String) (fetched : FetchOutcome) :
    render_and_read ("") fetched = (PageState.login_required, (""))
    ∧ (check_once hash m b st (render_and_read ("") fetched) now).res.ok = false
    ∧ (check_once hash m b st (render_and_read ("") fetched) now).sent
        = [operator_alert_msg] := by
  refine ⟨rfl, ?_, ?_⟩ <;> simp [render_and_read, check_once]
